import Mathlib

/-!
Shallow embedding of the beauty-clinic customer-service tool layer
(`customer_service/tools/tools.py`) and the customer entity model
(`customer_service/entities/customer.py`).

Modelling conventions:
* Python dictionaries / strings / numbers returned by the tools are embedded
  as the inductive `PyVal`; a Python `dict` is an association list preserving
  insertion order.
* Python `float` arguments are embedded as exact rationals (`ℚ`); the numeric
  comparisons in the source are order comparisons against integer literals.
* Effectful calls are passed explicitly: `uuid.uuid4()` results become an
  explicit string argument, `datetime.now()` becomes an explicit `PyDate`
  argument.
* `str.lower()` is embedded as per-character lowercasing, `in` on strings as
  substring containment, `str.split(sep)[0]` via an explicit split on a
  separator character.
-/

/-- Embedding of the JSON-like Python values produced by the tools. -/
inductive PyVal where
  | str : String → PyVal
  | int : Int → PyVal
  | rat : ℚ → PyVal
  | bool : Bool → PyVal
  | list : List PyVal → PyVal
  | dict : List (String × PyVal) → PyVal

/-- Key lookup in an embedded Python dict; `none` on non-dicts. -/
def PyVal.lookup : PyVal → String → Option PyVal
  | .dict kvs, k => List.lookup k kvs
  | _, _ => none

/-- Is this value a Python dict? -/
def PyVal.isDict : PyVal → Bool
  | .dict _ => true
  | _ => false

/-- Is this value a bare Python string? -/
def PyVal.isStr : PyVal → Bool
  | .str _ => true
  | _ => false

/-- Is this value a Python list? -/
def PyVal.isList : PyVal → Bool
  | .list _ => true
  | _ => false

/-- Does `needle` occur as a contiguous substring of the character list?
Embeds Python's `needle in haystack` on strings. -/
def pyContainsAux (needle : List Char) : List Char → Bool
  | [] => needle.isEmpty
  | c :: cs => needle.isPrefixOf (c :: cs) || pyContainsAux needle cs

/-- Python `needle in haystack` for strings. -/
def pyContains (haystack needle : String) : Bool :=
  pyContainsAux needle.data haystack.data

/-- Python `str.lower()`, embedded as per-character lowercasing. -/
def pyLower (s : String) : String :=
  ⟨s.data.map Char.toLower⟩

/-- Python `str.split(sep)` for a single-character separator: accumulator
holds the current field, reversed. -/
def splitOnCharAux (sep : Char) : List Char → List Char → List (List Char)
  | [], acc => [acc.reverse]
  | c :: cs, acc =>
      if c = sep then acc.reverse :: splitOnCharAux sep cs []
      else splitOnCharAux sep cs (c :: acc)

/-- Python `str.split(sep)` for a single-character separator. -/
def splitOnChar (sep : Char) (s : List Char) : List (List Char) :=
  splitOnCharAux sep s []

/-- A calendar date, standing in for the date part of a Python `datetime`. -/
structure PyDate where
  year : Int
  month : Int
  day : Int

/-- Days since 1970-01-01 of a proleptic-Gregorian civil date
(days-from-civil algorithm). -/
def dateToDays (dt : PyDate) : Int :=
  let y : Int := if dt.month ≤ 2 then dt.year - 1 else dt.year
  let era : Int := Int.fdiv y 400
  let yoe : Int := y - era * 400
  let mp : Int := Int.emod (dt.month + 9) 12
  let doy : Int := Int.fdiv (153 * mp + 2) 5 + dt.day - 1
  let doe : Int := yoe * 365 + Int.fdiv yoe 4 - Int.fdiv yoe 100 + doy
  era * 146097 + doe - 719468

/-- Civil date of a days-since-1970-01-01 count (civil-from-days algorithm). -/
def daysToDate (z0 : Int) : PyDate :=
  let z := z0 + 719468
  let era := Int.fdiv z 146097
  let doe := z - era * 146097
  let yoe := Int.fdiv (doe - Int.fdiv doe 1460 + Int.fdiv doe 36524 - Int.fdiv doe 146096) 365
  let y := yoe + era * 400
  let doy := doe - (365 * yoe + Int.fdiv yoe 4 - Int.fdiv yoe 100)
  let mp := Int.fdiv (5 * doy + 2) 153
  let d := doy - Int.fdiv (153 * mp + 2) 5 + 1
  let m := if mp < 10 then mp + 3 else mp - 9
  ⟨if m ≤ 2 then y + 1 else y, m, d⟩

/-- Python `datetime + timedelta(days=n)`, restricted to the date part
(adding whole days never changes the time of day). -/
def dateAddDays (dt : PyDate) (n : Int) : PyDate :=
  daysToDate (dateToDays dt + n)

/-- Decimal rendering of a natural number, zero-padded to `w` digits. -/
def padNat (w : Nat) (n : Nat) : String :=
  let s := toString n
  if s.length < w then ⟨List.replicate (w - s.length) '0'⟩ ++ s else s

/-- Decimal rendering of an integer, zero-padded to `w` digits. -/
def padInt (w : Nat) (n : Int) : String :=
  if n < 0 then "-" ++ padNat w n.natAbs else padNat w n.toNat

/-- Python `datetime.strftime("%Y-%m-%d")`. -/
def formatDate (dt : PyDate) : String :=
  padInt 4 dt.year ++ "-" ++ padInt 2 dt.month ++ "-" ++ padInt 2 dt.day

set_option linter.unusedVariables false

/-! ## Entity model (`customer_service/entities/customer.py`) -/

/-- A customer's address. -/
structure Address where
  street : String
  city : String
  state : String
  zip : String

/-- A product in a customer's purchase history. -/
structure Product where
  product_id : String
  name : String
  quantity : Int

/-- A customer's purchase. -/
structure Purchase where
  date : String
  items : List Product
  total_amount : ℚ

/-- A customer's communication preferences. -/
structure CommunicationPreferences where
  email : Bool := true
  sms : Bool := true
  push_notifications : Bool := true

/-- A customer's beauty profile. -/
structure BeautyProfile where
  skin_type : String
  concerns : List String
  previous_treatments : List String
  preferred_treatment_time : String
  budget_range : String

/-- A customer. -/
structure Customer where
  account_number : String
  customer_id : String
  customer_first_name : String
  customer_last_name : String
  email : String
  phone_number : String
  customer_start_date : String
  years_as_customer : Int
  billing_address : Address
  treatment_history : List Purchase
  loyalty_points : Int
  preferred_clinic : String
  communication_preferences : CommunicationPreferences
  beauty_profile : BeautyProfile
  scheduled_appointments : List (String × PyVal) := []

/-- `Customer.get_customer`: retrieves a customer based on their ID.  The
source returns a dummy customer built from hardcoded literals, except that
the `customer_id` field is set to the id that was passed in. -/
def Customer.get_customer (current_customer_id : String) : Option Customer :=
  some
    { customer_id := current_customer_id
      account_number := "428765091"
      customer_first_name := "민지"
      customer_last_name := "김"
      email := "minji.kim@example.com"
      phone_number := "+82-10-1234-5678"
      customer_start_date := "2022-06-10"
      years_as_customer := 2
      billing_address :=
        { street := "123 강남대로", city := "서울", state := "강남구", zip := "06292" }
      treatment_history :=
        [ { date := "2023-03-05"
            items :=
              [ { product_id := "botox-111", name := "보톡스 (이마)", quantity := 1 },
                { product_id := "skincare-222", name := "하이드라페이셜", quantity := 1 } ]
            total_amount := 350000 },
          { date := "2023-07-12"
            items :=
              [ { product_id := "filler-333", name := "필러 (볼)", quantity := 1 },
                { product_id := "laser-444", name := "레이저 토닝", quantity := 1 } ]
            total_amount := 520000 },
          { date := "2024-01-20"
            items :=
              [ { product_id := "peel-555", name := "화학적 필링", quantity := 1 },
                { product_id := "massage-666", name := "얼굴 마사지", quantity := 1 } ]
            total_amount := 180000 } ]
      loyalty_points := 1050
      preferred_clinic := "엘리트 뷰티 클리닉 강남점"
      communication_preferences :=
        { email := true, sms := true, push_notifications := true }
      beauty_profile :=
        { skin_type := "복합성"
          concerns := ["색소침착", "주름", "모공"]
          previous_treatments := ["보톡스", "필러", "레이저토닝"]
          preferred_treatment_time := "오후"
          budget_range := "월 30-50만원" }
      scheduled_appointments := [] }

/-! ## Tool layer (`customer_service/tools/tools.py`)

Each Python tool function becomes a total Lean function returning `PyVal`;
totality of these definitions is the embedding of "no tool raises". -/

/-- `send_call_companion_link`. -/
def send_call_companion_link (phone_number : String) : PyVal :=
  .dict [("status", .str "success"), ("message", .str ("Link sent to " ++ phone_number))]

/-- `approve_discount`: rejects any value strictly greater than 10,
regardless of `discount_type`; otherwise approves. -/
def approve_discount (discount_type : String) (value : ℚ) (reason : String) : PyVal :=
  if value > 10 then
    .dict [("status", .str "rejected"),
           ("message", .str "discount too large. Must be 10 or less.")]
  else
    .dict [("status", .str "ok")]

/-- `sync_ask_for_approval`: always approves in the mock. -/
def sync_ask_for_approval (discount_type : String) (value : ℚ) (reason : String) : PyVal :=
  .dict [("status", .str "approved")]

/-- `update_salesforce_crm`. -/
def update_salesforce_crm (customer_id : String) (details : PyVal) : PyVal :=
  .dict [("status", .str "success"), ("message", .str "Salesforce record updated.")]

/-- `access_cart_information`: constant mock cart. -/
def access_cart_information (customer_id : String) : PyVal :=
  .dict
    [ ("items", .list
        [ .dict [("product_id", .str "botox-123"), ("name", .str "보톡스 (눈가)"),
                 ("quantity", .int 1), ("price", .int 250000)],
          .dict [("product_id", .str "facial-456"), ("name", .str "딥클렌징 페이셜"),
                 ("quantity", .int 1), ("price", .int 180000)] ]),
      ("subtotal", .int 430000) ]

/-- `modify_cart`: constant mock success. -/
def modify_cart (customer_id : String) (items_to_add items_to_remove : List PyVal) : PyVal :=
  .dict [("status", .str "success"), ("message", .str "Cart updated successfully."),
         ("items_added", .bool true), ("items_removed", .bool true)]

/-- The fixed wrinkle-concern recommendation list of
`get_product_recommendations`. -/
def wrinkleRecs : PyVal :=
  .dict
    [ ("recommendations", .list
        [ .dict [("product_id", .str "botox-456"), ("name", .str "보톡스 (이마)"),
                 ("description", .str "이마 주름 개선에 효과적인 시술입니다."),
                 ("price", .int 200000)],
          .dict [("product_id", .str "filler-789"), ("name", .str "히알루론산 필러"),
                 ("description", .str "깊은 주름 및 볼륨 개선을 위한 시술입니다."),
                 ("price", .int 300000)] ]) ]

/-- The fixed pigmentation-concern recommendation list of
`get_product_recommendations`. -/
def pigmentRecs : PyVal :=
  .dict
    [ ("recommendations", .list
        [ .dict [("product_id", .str "laser-456"), ("name", .str "피코 레이저"),
                 ("description", .str "멜라닌 색소 분해로 색소침착 개선에 탁월합니다."),
                 ("price", .int 150000)],
          .dict [("product_id", .str "ipl-789"), ("name", .str "IPL 광치료"),
                 ("description", .str "다양한 색소 질환과 홍조 개선에 효과적입니다."),
                 ("price", .int 120000)] ]) ]

/-- The fixed default recommendation list of `get_product_recommendations`. -/
def defaultRecs : PyVal :=
  .dict
    [ ("recommendations", .list
        [ .dict [("product_id", .str "facial-123"), ("name", .str "하이드라페이셜"),
                 ("description", .str "모든 피부 타입에 적합한 기본 관리 시술입니다."),
                 ("price", .int 150000)],
          .dict [("product_id", .str "peel-456"), ("name", .str "화학적 필링"),
                 ("description", .str "각질 제거 및 피부 톤 개선에 효과적입니다."),
                 ("price", .int 100000)] ]) ]

/-- `get_product_recommendations`: keyword match on the lowercased concern
string, wrinkle keyword first, then pigmentation, else the default list. -/
def get_product_recommendations (skin_concern : String) (customer_id : String) : PyVal :=
  if pyContains (pyLower skin_concern) "주름" then wrinkleRecs
  else if pyContains (pyLower skin_concern) "색소침착" then pigmentRecs
  else defaultRecs

/-- `check_product_availability`: constant mock, echoes the store id. -/
def check_product_availability (product_id : String) (store_id : String) : PyVal :=
  .dict [("available", .bool true), ("quantity", .int 10), ("store", .str store_id)]

/-- `schedule_planting_service`: the `uuid4_str` argument is the string form
of the `uuid.uuid4()` value drawn during the call. -/
def schedule_planting_service (customer_id date time_range details : String)
    (uuid4_str : String) : PyVal :=
  let start_time_str : String := ⟨(splitOnChar '-' time_range.data).headD []⟩
  let confirmation_time_str := date ++ " " ++ start_time_str ++ ":00"
  .dict [("status", .str "success"),
         ("appointment_id", .str uuid4_str),
         ("date", .str date),
         ("time", .str time_range),
         ("treatment", .str details),
         ("confirmation_time", .str confirmation_time_str),
         ("location", .str "엘리트 뷰티 클리닉 강남점")]

/-- `get_available_planting_times`: constant mock slot list. -/
def get_available_planting_times (date : String) : PyVal :=
  .list [.str "9-11", .str "11-13", .str "14-16", .str "16-18", .str "18-20"]

/-- `send_care_instructions`. -/
def send_care_instructions (customer_id treatment_type delivery_method : String) : PyVal :=
  let delivery_method_kr := if delivery_method = "email" then "이메일" else "SMS"
  .dict [("status", .str "success"),
         ("message", .str (treatment_type ++ " 시술 후 관리 안내를 " ++ delivery_method_kr ++ "로 발송했습니다."))]

/-- `generate_qr_code`: the guardrail caps percentage (or empty-type)
discounts at 10 and fixed discounts at 20, returning a bare string on
violation; the `now` argument is the date part of `datetime.now()`. -/
def generate_qr_code (customer_id : String) (discount_value : ℚ)
    (discount_type : String) (expiration_days : Int) (now : PyDate) : PyVal :=
  if (discount_type = "" ∨ discount_type = "percentage") ∧ discount_value > 10 then
    .str "cannot generate a QR code for this amount, must be 10% or less"
  else if discount_type = "fixed" ∧ discount_value > 20 then
    .str "cannot generate a QR code for this amount, must be 20 or less"
  else
    .dict [("status", .str "success"),
           ("qr_code_data", .str "MOCK_QR_CODE_DATA"),
           ("expiration_date", .str (formatDate (dateAddDays now expiration_days)))]

/-- `send_satisfaction_survey`. -/
def send_satisfaction_survey (customer_id treatment_type delivery_method : String) : PyVal :=
  let delivery_method_kr := if delivery_method = "email" then "이메일" else "SMS"
  .dict [("status", .str "success"),
         ("message", .str (treatment_type ++ " 시술 만족도 조사를 " ++ delivery_method_kr ++ "로 발송했습니다.")),
         ("survey_link", .str ("https://survey.elitebeauty.com/" ++ customer_id ++ "/" ++ treatment_type))]

/-- `collect_feedback`: validates that the rating lies in 1..5. -/
def collect_feedback (customer_id : String) (rating : Int)
    (feedback : String) (treatment_type : String) : PyVal :=
  if rating < 1 ∨ rating > 5 then
    .dict [("status", .str "error"),
           ("message", .str "평점은 1~5점 사이여야 합니다.")]
  else
    .dict [("status", .str "success"),
           ("message", .str "피드백이 성공적으로 저장되었습니다."),
           ("rating", .int rating),
           ("feedback", .str feedback),
           ("treatment", .str treatment_type)]

/-- `get_satisfaction_statistics`: constant mock data. -/
def get_satisfaction_statistics (clinic_id : String) : PyVal :=
  .dict [("average_rating", .rat 4.8),
         ("total_reviews", .int 150),
         ("satisfaction_rate", .int 96),
         ("top_rated_treatments", .list
            [ .dict [("name", .str "보톡스"), ("rating", .rat 4.9)],
              .dict [("name", .str "필러"), ("rating", .rat 4.7)],
              .dict [("name", .str "레이저토닝"), ("rating", .rat 4.8)] ])]

/-- `send_appointment_reminder`: selects a template by `reminder_type` with a
generic fallback for unrecognized values. -/
def send_appointment_reminder (customer_id appointment_id reminder_type : String) : PyVal :=
  let reminder_messages : List (String × String) :=
    [("24h", "24시간 전 예약 알림을 발송했습니다."),
     ("2h", "2시간 전 예약 알림을 발송했습니다."),
     ("30min", "30분 전 예약 알림을 발송했습니다.")]
  .dict [("status", .str "success"),
         ("message", .str ((List.lookup reminder_type reminder_messages).getD "예약 알림을 발송했습니다.")),
         ("appointment_id", .str appointment_id),
         ("reminder_type", .str reminder_type)]

/-- `set_appointment_notifications`. -/
def set_appointment_notifications (customer_id appointment_id : String)
    (notifications : PyVal) : PyVal :=
  .dict [("status", .str "success"),
         ("message", .str "알림 설정이 완료되었습니다."),
         ("appointment_id", .str appointment_id),
         ("notifications", notifications)]

/-- `check_upcoming_appointments`: constant mock data. -/
def check_upcoming_appointments (customer_id : String) : PyVal :=
  .dict [("appointments", .list
    [ .dict [("appointment_id", .str "apt123"), ("date", .str "2024-05-25"),
             ("time", .str "14-16"), ("treatment", .str "보톡스 (이마)"),
             ("location", .str "엘리트 뷰티 클리닉 강남점"),
             ("doctor", .str "김미용 원장"), ("status", .str "confirmed")],
      .dict [("appointment_id", .str "apt124"), ("date", .str "2024-05-30"),
             ("time", .str "11-13"), ("treatment", .str "필러 (볼)"),
             ("location", .str "엘리트 뷰티 클리닉 강남점"),
             ("doctor", .str "이성형 원장"), ("status", .str "pending")] ])]

/-- `send_mobile_app_notification`: the `uuid4_str` argument is the string
form of the `uuid.uuid4()` value drawn during the call. -/
def send_mobile_app_notification (customer_id message notification_type : String)
    (uuid4_str : String) : PyVal :=
  .dict [("status", .str "success"),
         ("message", .str "모바일 앱 알림이 발송되었습니다."),
         ("notification_id", .str uuid4_str),
         ("customer_id", .str customer_id),
         ("type", .str notification_type)]

/-- `generate_mobile_deep_link`: `parameters` is the optional Python dict,
embedded as an insertion-ordered association list; `none` embeds `None`. -/
def generate_mobile_deep_link (customer_id target_screen : String)
    (parameters : Option (List (String × String))) : PyVal :=
  let base_url := "elitebeauty://" ++ target_screen ++ "?customer_id=" ++ customer_id
  let base_url :=
    match parameters with
    | none => base_url
    | some ps =>
        if ps.isEmpty then base_url
        else ps.foldl (fun acc kv => acc ++ ("&" ++ kv.1 ++ "=" ++ kv.2)) base_url
  .dict [("status", .str "success"),
         ("deep_link", .str base_url),
         ("qr_code", .str ("https://api.qrserver.com/v1/create-qr-code/?data=" ++ base_url))]

/-- `sync_customer_data_to_app`: the `now_iso` argument is the
`datetime.now().isoformat()` string produced during the call. -/
def sync_customer_data_to_app (customer_id : String) (now_iso : String) : PyVal :=
  .dict [("status", .str "success"),
         ("message", .str "고객 데이터가 모바일 앱에 동기화되었습니다."),
         ("sync_timestamp", .str now_iso),
         ("customer_id", .str customer_id)]

/-- `get_mobile_app_analytics`: constant mock data. -/
def get_mobile_app_analytics (customer_id : String) : PyVal :=
  .dict [("last_login", .str "2024-05-23T10:30:00"),
         ("total_sessions", .int 15),
         ("most_used_feature", .str "appointment_booking"),
         ("app_version", .str "2.1.0"),
         ("device_type", .str "iOS"),
         ("push_notifications_enabled", .bool true),
         ("preferences", .dict
            [("language", .str "ko"), ("theme", .str "light"),
             ("notifications", .dict
                [("appointments", .bool true), ("promotions", .bool false),
                 ("news", .bool true)])])]

/-! ## Helper definitions and lemmas -/

/-- The "&key=value" rendering of a parameter list, one pair per entry,
in list order. -/
def ampPairs : List (String × String) → String
  | [] => ""
  | kv :: rest => "&" ++ kv.1 ++ "=" ++ kv.2 ++ ampPairs rest

theorem splitOnCharAux_headD (sep : Char) (l acc : List Char) :
    (splitOnCharAux sep l acc).headD [] = acc.reverse ++ l.takeWhile (· != sep) := by
  induction l generalizing acc with
  | nil => simp [splitOnCharAux]
  | cons c cs ih =>
      by_cases h : c = sep
      · simp [splitOnCharAux, h]
      · have hstep : splitOnCharAux sep (c :: cs) acc = splitOnCharAux sep cs (c :: acc) := by
          simp [splitOnCharAux, h]
        rw [hstep, ih]
        simp [h, List.takeWhile_cons, List.append_assoc]

theorem splitOnChar_headD (sep : Char) (s : List Char) :
    (splitOnChar sep s).headD [] = s.takeWhile (· != sep) := by
  show (splitOnCharAux sep s []).headD [] = _
  rw [splitOnCharAux_headD]
  simp

theorem foldl_ampPairs (ps : List (String × String)) (acc : String) :
    ps.foldl (fun a kv => a ++ ("&" ++ kv.1 ++ "=" ++ kv.2)) acc = acc ++ ampPairs ps := by
  induction ps generalizing acc with
  | nil => simp [ampPairs, String.append_empty]
  | cons kv rest ih =>
      rw [List.foldl_cons, ih]
      simp [ampPairs, String.append_assoc]

/-! ## Claim theorems -/

/-- C1: for every discount_type, reason and value, `approve_discount` is
a mapping; its result does not depend on the discount_type; when the value
is strictly greater than 10 the status is "rejected" and the message
contains "10"; when the value is at most 10 the status is "ok". -/
theorem approve_discount_cap (discount_type discount_type' : String) (value : ℚ)
    (reason : String) :
    (approve_discount discount_type value reason).isDict = true
    ∧ approve_discount discount_type value reason
        = approve_discount discount_type' value reason
    ∧ (value > 10 →
        (approve_discount discount_type value reason).lookup "status"
            = some (.str "rejected")
        ∧ ∃ m, (approve_discount discount_type value reason).lookup "message"
            = some (.str m) ∧ pyContains m "10" = true)
    ∧ (value ≤ 10 →
        (approve_discount discount_type value reason).lookup "status"
            = some (.str "ok")) := by
  refine ⟨?_, rfl, ?_, ?_⟩
  · unfold approve_discount
    split <;> rfl
  · intro h
    unfold approve_discount
    rw [if_pos h]
    exact ⟨rfl, "discount too large. Must be 10 or less.", rfl, by decide⟩
  · intro h
    unfold approve_discount
    rw [if_neg (not_lt.mpr h)]
    rfl

theorem approve_discount_cap_witness :
    (approve_discount "percentage" 11 "loyalty").lookup "status" = some (.str "rejected")
    ∧ (approve_discount "flat" 10 "loyalty").lookup "status" = some (.str "ok") :=
  ⟨((approve_discount_cap "percentage" "flat" 11 "loyalty").2.2.1 (by norm_num)).1,
   (approve_discount_cap "flat" "percentage" 10 "loyalty").2.2.2 (by norm_num)⟩

/-- C2: `generate_qr_code` returns an error for empty/percentage types with
value above 10 and for fixed type above 20; in every other case it returns
success with expiration date equal to the current date plus
`expiration_days`, formatted YYYY-MM-DD. -/
theorem generate_qr_code_caps (customer_id : String) (discount_value : ℚ)
    (discount_type : String) (expiration_days : Int) (now : PyDate) :
    ((discount_type = "" ∨ discount_type = "percentage") → discount_value > 10 →
        generate_qr_code customer_id discount_value discount_type expiration_days now
          = .str "cannot generate a QR code for this amount, must be 10% or less")
    ∧ (discount_type = "fixed" → discount_value > 20 →
        generate_qr_code customer_id discount_value discount_type expiration_days now
          = .str "cannot generate a QR code for this amount, must be 20 or less")
    ∧ (¬((discount_type = "" ∨ discount_type = "percentage") ∧ discount_value > 10) →
       ¬(discount_type = "fixed" ∧ discount_value > 20) →
        generate_qr_code customer_id discount_value discount_type expiration_days now
          = .dict [("status", .str "success"),
                   ("qr_code_data", .str "MOCK_QR_CODE_DATA"),
                   ("expiration_date",
                     .str (formatDate (dateAddDays now expiration_days)))]) := by
  refine ⟨?_, ?_, ?_⟩
  · intro ht hv
    unfold generate_qr_code
    rw [if_pos ⟨ht, hv⟩]
  · intro ht hv
    unfold generate_qr_code
    have hne : ¬((discount_type = "" ∨ discount_type = "percentage") ∧ discount_value > 10) := by
      rintro ⟨h1 | h1, _⟩ <;> rw [ht] at h1 <;> exact absurd h1 (by decide)
    rw [if_neg hne, if_pos ⟨ht, hv⟩]
  · intro h1 h2
    unfold generate_qr_code
    rw [if_neg h1, if_neg h2]

theorem generate_qr_code_caps_witness :
    generate_qr_code "123" 15 "percentage" 30 ⟨2024, 7, 25⟩
      = .str "cannot generate a QR code for this amount, must be 10% or less"
    ∧ generate_qr_code "123" 25 "fixed" 30 ⟨2024, 7, 25⟩
      = .str "cannot generate a QR code for this amount, must be 20 or less"
    ∧ generate_qr_code "123" 10 "percentage" 30 ⟨2024, 7, 25⟩
      = .dict [("status", .str "success"),
               ("qr_code_data", .str "MOCK_QR_CODE_DATA"),
               ("expiration_date", .str "2024-08-24")] := by
  refine ⟨(generate_qr_code_caps "123" 15 "percentage" 30 ⟨2024, 7, 25⟩).1
            (Or.inr rfl) (by norm_num),
          (generate_qr_code_caps "123" 25 "fixed" 30 ⟨2024, 7, 25⟩).2.1
            rfl (by norm_num),
          ((generate_qr_code_caps "123" 10 "percentage" 30 ⟨2024, 7, 25⟩).2.2
            (by norm_num) (by norm_num)).trans ?_⟩
  rfl

/-- C4: for every discount_type outside {"", "percentage", "fixed"} and every
discount_value, `generate_qr_code` bypasses both caps and returns a success
mapping carrying `qr_code_data` and `expiration_date`. -/
theorem generate_qr_code_unrecognized_type (customer_id : String) (discount_value : ℚ)
    (discount_type : String) (expiration_days : Int) (now : PyDate)
    (h1 : discount_type ≠ "") (h2 : discount_type ≠ "percentage")
    (h3 : discount_type ≠ "fixed") :
    generate_qr_code customer_id discount_value discount_type expiration_days now
      = .dict [("status", .str "success"),
               ("qr_code_data", .str "MOCK_QR_CODE_DATA"),
               ("expiration_date", .str (formatDate (dateAddDays now expiration_days)))]
    ∧ ((generate_qr_code customer_id discount_value discount_type expiration_days now).lookup
          "qr_code_data").isSome = true
    ∧ ((generate_qr_code customer_id discount_value discount_type expiration_days now).lookup
          "expiration_date").isSome = true := by
  have hmain : generate_qr_code customer_id discount_value discount_type expiration_days now
      = .dict [("status", .str "success"),
               ("qr_code_data", .str "MOCK_QR_CODE_DATA"),
               ("expiration_date", .str (formatDate (dateAddDays now expiration_days)))] := by
    unfold generate_qr_code
    rw [if_neg (fun h => h.1.elim h1 h2), if_neg (fun h => h3 h.1)]
  refine ⟨hmain, ?_, ?_⟩ <;> rw [hmain] <;> rfl

theorem generate_qr_code_unrecognized_type_witness :
    generate_qr_code "123" 1000000 "flat" 30 ⟨2024, 7, 25⟩
      = .dict [("status", .str "success"),
               ("qr_code_data", .str "MOCK_QR_CODE_DATA"),
               ("expiration_date", .str "2024-08-24")] :=
  ((generate_qr_code_unrecognized_type "123" 1000000 "flat" 30 ⟨2024, 7, 25⟩
      (by decide) (by decide) (by decide)).1).trans (by rfl)

/-- C5: `collect_feedback` returns status "success" for every integer rating
in [1,5] and status "error" for every integer rating outside [1,5]; the
result is a mapping in both cases. -/
theorem collect_feedback_rating_bounds (customer_id : String) (rating : Int)
    (feedback treatment_type : String) :
    (collect_feedback customer_id rating feedback treatment_type).isDict = true
    ∧ (1 ≤ rating → rating ≤ 5 →
        (collect_feedback customer_id rating feedback treatment_type).lookup "status"
          = some (.str "success"))
    ∧ (rating < 1 ∨ rating > 5 →
        (collect_feedback customer_id rating feedback treatment_type).lookup "status"
          = some (.str "error")) := by
  refine ⟨?_, ?_, ?_⟩
  · unfold collect_feedback
    split <;> rfl
  · intro h1 h2
    unfold collect_feedback
    rw [if_neg (by omega)]
    rfl
  · intro h
    unfold collect_feedback
    rw [if_pos h]
    rfl

theorem collect_feedback_rating_bounds_witness :
    (collect_feedback "123" 5 "매우 만족" "보톡스").lookup "status" = some (.str "success")
    ∧ (collect_feedback "123" 0 "별로" "보톡스").lookup "status" = some (.str "error") :=
  ⟨(collect_feedback_rating_bounds "123" 5 "매우 만족" "보톡스").2.1 (by norm_num) (by norm_num),
   (collect_feedback_rating_bounds "123" 0 "별로" "보톡스").2.2 (Or.inl (by norm_num))⟩

/-- C3: no tool raises — every tool is a total function (each embedded tool
is a total Lean definition) whose error conditions are signaled through a
status/message field of the returned mapping; the single exception is
`generate_qr_code`, whose validation failure is a bare string, produced
exactly when one of its caps is violated. -/
theorem tools_error_shape :
    (∀ pn, (send_call_companion_link pn).isDict = true)
    ∧ (∀ dt (v : ℚ) r, (approve_discount dt v r).isDict = true
        ∧ ((approve_discount dt v r).lookup "message").isSome = decide (v > 10)
        ∧ (approve_discount dt v r).lookup "status"
            = some (.str (if v > 10 then "rejected" else "ok")))
    ∧ (∀ dt (v : ℚ) r, (sync_ask_for_approval dt v r).isDict = true)
    ∧ (∀ cid d, (update_salesforce_crm cid d).isDict = true)
    ∧ (∀ cid, (access_cart_information cid).isDict = true)
    ∧ (∀ cid a b, (modify_cart cid a b).isDict = true)
    ∧ (∀ s cid, (get_product_recommendations s cid).isDict = true)
    ∧ (∀ p st, (check_product_availability p st).isDict = true)
    ∧ (∀ c d t x u, (schedule_planting_service c d t x u).isDict = true)
    ∧ (∀ d, (get_available_planting_times d).isList = true)
    ∧ (∀ c t m, (send_care_instructions c t m).isDict = true)
    ∧ (∀ c t m, (send_satisfaction_survey c t m).isDict = true)
    ∧ (∀ cid (rt : Int) f tt, (collect_feedback cid rt f tt).isDict = true
        ∧ ((collect_feedback cid rt f tt).lookup "message").isSome = true
        ∧ (collect_feedback cid rt f tt).lookup "status"
            = some (.str (if rt < 1 ∨ rt > 5 then "error" else "success")))
    ∧ (∀ c, (get_satisfaction_statistics c).isDict = true)
    ∧ (∀ c a r, (send_appointment_reminder c a r).isDict = true)
    ∧ (∀ c a n, (set_appointment_notifications c a n).isDict = true)
    ∧ (∀ c, (check_upcoming_appointments c).isDict = true)
    ∧ (∀ c m t u, (send_mobile_app_notification c m t u).isDict = true)
    ∧ (∀ c t p, (generate_mobile_deep_link c t p).isDict = true)
    ∧ (∀ c n, (sync_customer_data_to_app c n).isDict = true)
    ∧ (∀ c, (get_mobile_app_analytics c).isDict = true)
    ∧ (∀ cid (dv : ℚ) dt ed now,
        ((generate_qr_code cid dv dt ed now).isDict = true
          ∨ (generate_qr_code cid dv dt ed now).isStr = true)
        ∧ (generate_qr_code cid dv dt ed now).isStr
            = decide (((dt = "" ∨ dt = "percentage") ∧ dv > 10)
                       ∨ (dt = "fixed" ∧ dv > 20))) := by
  refine ⟨fun pn => rfl, ?_, fun dt v r => rfl, fun cid d => rfl, fun cid => rfl,
          fun cid a b => rfl, ?_, fun p st => rfl, fun c d t x u => rfl, fun d => rfl,
          ?_, ?_, ?_, fun c => rfl, fun c a r => rfl, fun c a n => rfl, fun c => rfl,
          fun c m t u => rfl, ?_, fun c n => rfl, fun c => rfl, ?_⟩
  · intro dt v r
    unfold approve_discount
    by_cases h : v > 10
    · rw [if_pos h]
      refine ⟨rfl, ?_, ?_⟩
      · simp only [decide_eq_true h]
        rfl
      · simp only [if_pos h]
        rfl
    · rw [if_neg h]
      refine ⟨rfl, ?_, ?_⟩
      · simp only [decide_eq_false h]
        rfl
      · simp only [if_neg h]
        rfl
  · intro s cid
    unfold get_product_recommendations
    split
    · rfl
    split <;> rfl
  · intro c t m
    unfold send_care_instructions
    split <;> rfl
  · intro c t m
    unfold send_satisfaction_survey
    split <;> rfl
  · intro cid rt f tt
    unfold collect_feedback
    by_cases h : rt < 1 ∨ rt > 5
    · rw [if_pos h]
      refine ⟨rfl, rfl, ?_⟩
      simp only [if_pos h]
      rfl
    · rw [if_neg h]
      refine ⟨rfl, rfl, ?_⟩
      simp only [if_neg h]
      rfl
  · intro c t p
    unfold generate_mobile_deep_link
    cases p with
    | none => exact rfl
    | some l =>
        cases l with
        | nil => exact rfl
        | cons kv rest => exact rfl
  · intro cid dv dt ed now
    unfold generate_qr_code
    by_cases h1 : (dt = "" ∨ dt = "percentage") ∧ dv > 10
    · rw [if_pos h1]
      exact ⟨Or.inr rfl, by simp only [decide_eq_true (Or.inl h1)]; rfl⟩
    · rw [if_neg h1]
      by_cases h2 : dt = "fixed" ∧ dv > 20
      · rw [if_pos h2]
        exact ⟨Or.inr rfl, by simp only [decide_eq_true (Or.inr h2)]; rfl⟩
      · rw [if_neg h2]
        exact ⟨Or.inl rfl,
          by simp only [decide_eq_false
               (show ¬(((dt = "" ∨ dt = "percentage") ∧ dv > 10)
                        ∨ (dt = "fixed" ∧ dv > 20)) from fun h => h.elim h1 h2)]
             rfl⟩

/-- C6: `get_product_recommendations` is total and returns exactly one of
three fixed lists: the wrinkle set when the lowercased concern contains the
wrinkle keyword, else the pigmentation set when it contains the pigmentation
keyword, else the default set. -/
theorem get_product_recommendations_priority (skin_concern customer_id : String) :
    (get_product_recommendations skin_concern customer_id = wrinkleRecs
      ∨ get_product_recommendations skin_concern customer_id = pigmentRecs
      ∨ get_product_recommendations skin_concern customer_id = defaultRecs)
    ∧ (pyContains (pyLower skin_concern) "주름" = true →
        get_product_recommendations skin_concern customer_id = wrinkleRecs)
    ∧ (pyContains (pyLower skin_concern) "주름" = false →
        pyContains (pyLower skin_concern) "색소침착" = true →
        get_product_recommendations skin_concern customer_id = pigmentRecs)
    ∧ (pyContains (pyLower skin_concern) "주름" = false →
        pyContains (pyLower skin_concern) "색소침착" = false →
        get_product_recommendations skin_concern customer_id = defaultRecs) := by
  unfold get_product_recommendations
  by_cases h1 : pyContains (pyLower skin_concern) "주름" = true
  · rw [if_pos h1]
    exact ⟨Or.inl rfl, fun _ => rfl,
           fun hf _ => absurd h1 (by rw [hf]; exact Bool.false_ne_true),
           fun hf _ => absurd h1 (by rw [hf]; exact Bool.false_ne_true)⟩
  · rw [if_neg h1]
    by_cases h2 : pyContains (pyLower skin_concern) "색소침착" = true
    · rw [if_pos h2]
      exact ⟨Or.inr (Or.inl rfl), fun ht => absurd ht h1, fun _ _ => rfl,
             fun _ hf => absurd h2 (by rw [hf]; exact Bool.false_ne_true)⟩
    · rw [if_neg h2]
      exact ⟨Or.inr (Or.inr rfl), fun ht => absurd ht h1,
             fun _ ht => absurd ht h2, fun _ _ => rfl⟩

theorem get_product_recommendations_priority_witness :
    get_product_recommendations "주름" "123" = wrinkleRecs
    ∧ get_product_recommendations "색소침착" "123" = pigmentRecs
    ∧ get_product_recommendations "여드름" "123" = defaultRecs :=
  ⟨(get_product_recommendations_priority "주름" "123").2.1 (by decide),
   (get_product_recommendations_priority "색소침착" "123").2.2.1 (by decide) (by decide),
   (get_product_recommendations_priority "여드름" "123").2.2.2 (by decide) (by decide)⟩

/-- C7: `schedule_planting_service` always reports success, echoes date,
time_range and details, and builds the confirmation time from the date and
the part of time_range before the first "-"; when time_range has no "-",
that part is the whole string. -/
theorem schedule_planting_service_fields
    (customer_id date time_range details uuid4_str : String) :
    (schedule_planting_service customer_id date time_range details uuid4_str).lookup
        "status" = some (.str "success")
    ∧ (schedule_planting_service customer_id date time_range details uuid4_str).lookup
        "date" = some (.str date)
    ∧ (schedule_planting_service customer_id date time_range details uuid4_str).lookup
        "time" = some (.str time_range)
    ∧ (schedule_planting_service customer_id date time_range details uuid4_str).lookup
        "treatment" = some (.str details)
    ∧ (schedule_planting_service customer_id date time_range details uuid4_str).lookup
        "confirmation_time"
        = some (.str (date ++ " " ++ String.mk (time_range.data.takeWhile (· != '-')) ++ ":00"))
    ∧ ('-' ∉ time_range.data →
        String.mk (time_range.data.takeWhile (· != '-')) = time_range) := by
  refine ⟨rfl, rfl, rfl, rfl, ?_, ?_⟩
  · exact congrArg
      (fun z => some (PyVal.str (date ++ " " ++ String.mk z ++ ":00")))
      (splitOnChar_headD '-' time_range.data)
  · intro h
    have hself : time_range.data.takeWhile (· != '-') = time_range.data := by
      rw [List.takeWhile_eq_self_iff]
      intro x hx
      have hne : x ≠ '-' := fun heq => h (heq ▸ hx)
      simp [hne]
    rw [hself]

theorem schedule_planting_service_fields_witness :
    (schedule_planting_service "123" "2024-07-29" "9-12" "x" "uuid-1").lookup
        "confirmation_time" = some (.str "2024-07-29 9:00")
    ∧ String.mk (("912" : String).data.takeWhile (· != '-')) = "912" :=
  ⟨((schedule_planting_service_fields "123" "2024-07-29" "9-12" "x" "uuid-1").2.2.2.2.1).trans
     (by rfl),
   (schedule_planting_service_fields "123" "2024-07-29" "912" "x" "uuid-1").2.2.2.2.2
     (by decide)⟩

/-- C8: the appointment id of `schedule_planting_service` is exactly the
fresh uuid drawn during the call, so two calls whose uuid draws differ —
even with identical arguments — yield different appointment ids. -/
theorem schedule_planting_service_fresh_id
    (c₁ d₁ t₁ x₁ u₁ c₂ d₂ t₂ x₂ u₂ : String) (h : u₁ ≠ u₂) :
    (schedule_planting_service c₁ d₁ t₁ x₁ u₁).lookup "appointment_id"
      ≠ (schedule_planting_service c₂ d₂ t₂ x₂ u₂).lookup "appointment_id" := by
  intro heq
  have h1 : some (PyVal.str u₁) = some (PyVal.str u₂) := heq
  exact h (PyVal.str.inj (Option.some.inj h1))

theorem schedule_planting_service_fresh_id_witness :
    (schedule_planting_service "123" "2024-07-29" "9-12" "x" "aaaa").lookup "appointment_id"
      ≠ (schedule_planting_service "123" "2024-07-29" "9-12" "x" "bbbb").lookup
          "appointment_id" :=
  schedule_planting_service_fresh_id "123" "2024-07-29" "9-12" "x" "aaaa"
    "123" "2024-07-29" "9-12" "x" "bbbb" (by decide)

/-- C9 counterexample: `Customer.get_customer` does not return the same
instance for every id — the returned profile's `customer_id` field echoes
the supplied id, so two different ids give two different results. -/
theorem get_customer_not_constant :
    Customer.get_customer "123" ≠ Customer.get_customer "456" := by
  intro h
  have h2 : some "123" = some "456" := congrArg (Option.map Customer.customer_id) h
  exact absurd (Option.some.inj h2) (by decide)

/-- C9 amended: `Customer.get_customer` always succeeds; the returned
profile's `customer_id` equals the supplied id, and every other field is the
same hardcoded value whatever id is supplied. -/
theorem get_customer_echoes_id (id₁ id₂ : String) :
    (Customer.get_customer id₁).isSome = true
    ∧ (Customer.get_customer id₁).map Customer.customer_id = some id₁
    ∧ (Customer.get_customer id₁).map (fun c => { c with customer_id := id₂ })
        = Customer.get_customer id₂ :=
  ⟨rfl, rfl, rfl⟩

/-- C10: the deep link of `generate_mobile_deep_link` is the base
`elitebeauty://<screen>?customer_id=<id>` with one `&key=value` pair
appended per parameter entry, in list (insertion) order; in particular the
§8 example produces the expected link. -/
theorem generate_mobile_deep_link_params_order (customer_id target_screen : String)
    (parameters : Option (List (String × String))) :
    (generate_mobile_deep_link customer_id target_screen parameters).lookup "deep_link"
      = some (.str ("elitebeauty://" ++ target_screen ++ "?customer_id=" ++ customer_id
          ++ ampPairs (parameters.getD [])))
    ∧ (generate_mobile_deep_link "123" "appointment"
          (some [("appointment_id", "apt123")])).lookup "deep_link"
      = some (.str "elitebeauty://appointment?customer_id=123&appointment_id=apt123") := by
  constructor
  · cases parameters with
    | none =>
        exact congrArg (fun z => some (PyVal.str z))
          (String.append_empty
            ("elitebeauty://" ++ target_screen ++ "?customer_id=" ++ customer_id)).symm
    | some ps =>
        cases ps with
        | nil =>
            exact congrArg (fun z => some (PyVal.str z))
              (String.append_empty
                ("elitebeauty://" ++ target_screen ++ "?customer_id=" ++ customer_id)).symm
        | cons kv rest =>
            exact congrArg (fun z => some (PyVal.str z))
              (foldl_ampPairs (kv :: rest)
                ("elitebeauty://" ++ target_screen ++ "?customer_id=" ++ customer_id))
  · rfl
